import Mathlib

/-!
Verification of the intercom-swap negotiation / settlement engine.

The definitions below are a shallow embedding of the JavaScript source:
byte buffers become `List Nat`, Node Buffer reads become explicit
little-endian folds, `BigInt` amounts become `Nat`/`Int`, and fallible
paths return `Except`/`Option`. Each definition mirrors one function of
the source; theorems at the bottom settle the specification claims.
-/

namespace IntercomSwap

/-! ## Byte-buffer primitives (Node Buffer reads used by decodeEscrowState) -/

/-- `buf.readUInt8(i)` on a byte buffer (out of range reads 0; the source
guards lengths before reading). -/
def bufReadU8 (data : List Nat) (i : Nat) : Nat := data.getD i 0

/-- `buf.subarray(a, b)`. -/
def bufSub (data : List Nat) (a b : Nat) : List Nat := (data.drop a).take (b - a)

/-- Fold a little-endian byte list into a natural number. -/
def leFold (bytes : List Nat) : Nat := bytes.foldr (fun b acc => acc * 256 + b) 0

/-- `buf.readUInt16LE(i)`. -/
def bufReadU16LE (data : List Nat) (i : Nat) : Nat := leFold (bufSub data i (i + 2))

/-- `buf.readBigUInt64LE(i)`. -/
def bufReadU64LE (data : List Nat) (i : Nat) : Nat := leFold (bufSub data i (i + 8))

/-- `buf.readBigInt64LE(i)`: two-complement signed read. -/
def bufReadI64LE (data : List Nat) (i : Nat) : Int :=
  let u := bufReadU64LE data i
  if u < 2 ^ 63 then (u : Int) else (u : Int) - 2 ^ 64

/-! ## String normalization helpers

JavaScript `.trim()` / `.toLowerCase()` are modelled on the character
list so that concrete witnesses evaluate inside the kernel. -/

/-- `String.prototype.trim()`: strip whitespace at both ends. -/
def strTrim (s : String) : String :=
  String.mk (((s.data.dropWhile Char.isWhitespace).reverse.dropWhile Char.isWhitespace).reverse)

/-- `String.prototype.toLowerCase()` (ASCII). -/
def strLower (s : String) : String := String.mk (s.data.map Char.toLower)

/-! ## decodeEscrowState (src/unnamed/part_002, lnUsdtEscrowClient.js) -/

/-- Decoded escrow account state, as returned by `decodeEscrowState`.
Pubkeys are kept as raw 32-byte lists; v1 accounts carry no fee fields. -/
structure EscrowStateRec where
  v : Nat
  status : Nat
  paymentHash : List Nat
  recipient : List Nat
  refund : List Nat
  refundAfter : Int
  mint : List Nat
  netAmount : Nat
  feeAmount : Nat
  feeBps : Nat
  feeCollector : Option (List Nat)
  vault : List Nat
  bump : Nat
  deriving Repr, DecidableEq

/-- Mirror of `decodeEscrowState(data)`: dispatch on the version byte,
guard the minimum length, then read every field at its fixed offset. -/
def decodeEscrowState (data : List Nat) : Except String EscrowStateRec :=
  let v := bufReadU8 data 0
  if v = 1 then
    if data.length < 179 then Except.error "Escrow account too small (v1)"
    else Except.ok
      { v := 1
        status := bufReadU8 data 1
        paymentHash := bufSub data 2 34
        recipient := bufSub data 34 66
        refund := bufSub data 66 98
        refundAfter := bufReadI64LE data 98
        mint := bufSub data 106 138
        netAmount := bufReadU64LE data 138
        feeAmount := 0
        feeBps := 0
        feeCollector := none
        vault := bufSub data 146 178
        bump := bufReadU8 data 178 }
  else if v = 2 then
    if data.length < 221 then Except.error "Escrow account too small (v2)"
    else Except.ok
      { v := 2
        status := bufReadU8 data 1
        paymentHash := bufSub data 2 34
        recipient := bufSub data 34 66
        refund := bufSub data 66 98
        refundAfter := bufReadI64LE data 98
        mint := bufSub data 106 138
        netAmount := bufReadU64LE data 138
        feeAmount := bufReadU64LE data 146
        feeBps := bufReadU16LE data 154
        feeCollector := some (bufSub data 156 188)
        vault := bufSub data 188 220
        bump := bufReadU8 data 220 }
  else Except.error "Unsupported escrow version"

/-! ## Maker startup guard and TERMS construction (src/unnamed/part_001) -/

def SOL_REFUND_MIN_SEC : Int := 3600

def SOL_REFUND_MAX_SEC : Int := 7 * 24 * 3600

/-- Mirror of the `--solana-refund-after-sec` guard in `main`: the process
dies (before any channel join) unless the value is inside the hard
guardrail interval. -/
def checkSolRefundAfterSec (s : Int) : Except String Int :=
  if s < SOL_REFUND_MIN_SEC then
    Except.error "Invalid --solana-refund-after-sec (must be >= 3600)"
  else if s > SOL_REFUND_MAX_SEC then
    Except.error "Invalid --solana-refund-after-sec (must be <= 604800)"
  else Except.ok s

/-- The economically material fields of the TERMS body built by
`createAndSendTerms`. -/
structure TermsBody where
  btc_sats : Int
  usdt_amount : String
  sol_recipient : String
  sol_refund : String
  sol_refund_after_unix : Int
  platform_fee_bps : Int
  trade_fee_bps : Int
  terms_valid_until_unix : Int
  deriving Repr, DecidableEq

/-- Mirror of the body construction in `createAndSendTerms`:
`sol_refund_after_unix = nowSec + solRefundAfterSec` and
`terms_valid_until_unix = nowSec + termsValidSec`. -/
def makeTermsBody (nowSec solRefundAfterSec termsValidSec : Int)
    (btcSats : Int) (usdtAmount solRecipient solRefund : String)
    (platformFeeBps tradeFeeBps : Int) : TermsBody :=
  { btc_sats := btcSats
    usdt_amount := usdtAmount
    sol_recipient := solRecipient
    sol_refund := solRefund
    sol_refund_after_unix := nowSec + solRefundAfterSec
    platform_fee_bps := platformFeeBps
    trade_fee_bps := tradeFeeBps
    terms_valid_until_unix := nowSec + termsValidSec }

/-! ## escrowctl config-init / config-set (src/unnamed/part_000) -/

/-- Request that `config-init` / `config-set` would submit on chain. -/
structure ConfigTxRequest where
  feeCollector : String
  feeBps : Int
  deriving Repr, DecidableEq

/-- Mirror of the escrowctl `config-init` / `config-set` branch: the
`--fee-collector` flag (trimmed; empty means absent) defaults to the
signer pubkey, and the command dies before building any transaction when
the resolved collector differs from the signer. -/
def escrowctlConfigCmd (feeCollectorFlag : Option String) (feeBps : Int)
    (signerPub : String) : Except String ConfigTxRequest :=
  let feeCollectorStr := (match feeCollectorFlag with
    | some v => strTrim v
    | none => "")
  let feeCollector := if feeCollectorStr ≠ "" then feeCollectorStr else signerPub
  if feeCollector ≠ signerPub then
    Except.error "Invalid --fee-collector: this program requires fee_collector == authority (signer)."
  else Except.ok { feeCollector := feeCollector, feeBps := feeBps }


/-! ## Maker RFQ locks and QUOTE_ACCEPT guards (src/unnamed/part_001) -/

/-- Lock state of an RFQ lock. -/
inductive LockState where
  | quoted
  | accepting
  | swapping
  deriving Repr, DecidableEq

/-- Maker-side RFQ lock record (the `rfqLocks` map values), parametric in
the type of the stored signed QUOTE envelope. -/
structure RfqLock (Q : Type) where
  state : LockState
  tradeId : String
  rfqSigner : String
  quoteId : String
  signedQuote : Option Q
  quoteValidUntilUnix : Int
  swapChannel : Option String
  inviteePubKey : Option String
  lockDeadlineMs : Int
  createdAtMs : Int
  lastSeenMs : Int
  deriving Repr, DecidableEq

/-- `normalizeAmountString`: trim, default to "0", and strip leading
zeros of an all-digit string. -/
def normalizeAmountString (value : String) : String :=
  let s := strTrim value
  if s = "" then "0"
  else if ¬ s.data.all Char.isDigit then s
  else
    let n := s.data.dropWhile (fun c => c = '0')
    if n = [] then "0" else String.mk n

/-- The envelope fields consulted by `buildRfqLockKey` (body values are
already stringified, as `String(x ?? '')` does in the source). -/
structure RfqMsg where
  signer : String
  trade_id : String
  pair : String
  direction : String
  btc_sats : String
  usdt_amount : String
  max_platform_fee_bps : String
  max_trade_fee_bps : String
  max_total_fee_bps : String
  min_sol_refund_window_sec : String
  max_sol_refund_window_sec : String
  sol_recipient : String
  sol_mint : String
  app_hash : String
  deriving Repr, DecidableEq

/-- `buildRfqLockKey(msg)`: the canonical pipe-joined RFQ lock key. -/
def buildRfqLockKey (m : RfqMsg) : String :=
  String.intercalate "|"
    [ strLower (strTrim m.signer)
    , strTrim m.trade_id
    , strTrim m.pair
    , strTrim m.direction
    , strTrim m.btc_sats
    , normalizeAmountString m.usdt_amount
    , strTrim m.max_platform_fee_bps
    , strTrim m.max_trade_fee_bps
    , strTrim m.max_total_fee_bps
    , strTrim m.min_sol_refund_window_sec
    , strTrim m.max_sol_refund_window_sec
    , strLower (strTrim m.sol_recipient)
    , strTrim m.sol_mint
    , strLower (strTrim m.app_hash) ]

/-- Action the RFQ handler takes when the computed lock key already has a
lock (part_001 lines 794-821). -/
inductive RfqExistingAction (Q : Type) where
  | resendQuote (q : Q)
  | dropInFlight
  | fallThrough (clearedExpiredQuote : Bool)
  deriving Repr, DecidableEq

/-- Mirror of the existing-lock branch of the RFQ handler: refresh
`lastSeenMs`; re-send the stored signed QUOTE while the lock is `quoted`
and the quote is still valid; drop the repost silently while the lock is
`accepting` or `swapping`; clear an expired quoted lock and fall through
to fresh quoting otherwise. -/
def handleRfqExistingLock {Q : Type} (lock : RfqLock Q) (nowMs nowSec : Int) :
    RfqLock Q × RfqExistingAction Q :=
  let l := { lock with lastSeenMs := nowMs }
  if hq : l.state = LockState.quoted ∧ l.signedQuote.isSome ∧ l.quoteValidUntilUnix > nowSec then
    (l, RfqExistingAction.resendQuote (l.signedQuote.get hq.2.1))
  else if l.state = LockState.accepting ∨ l.state = LockState.swapping then
    (l, RfqExistingAction.dropInFlight)
  else if l.state = LockState.quoted ∧ l.quoteValidUntilUnix ≤ nowSec then
    (l, RfqExistingAction.fallThrough true)
  else
    (l, RfqExistingAction.fallThrough false)

/-- Stored quote record (the `quotes` map values). -/
structure QuoteRec where
  rfqId : String
  rfqSigner : String
  tradeId : String
  btcSats : Int
  usdtAmount : String
  solRecipient : String
  lockKey : String
  deriving Repr, DecidableEq

/-- Outcome of the QUOTE_ACCEPT handler up to the swap start. -/
inductive QuoteAcceptAction where
  | drop
  | retryResend
  | startSwap (swapChannel inviteePubKey : String)
  deriving Repr, DecidableEq

/-- A recorded invitee that differs from the accepting signer. -/
def inviteeMismatch (o : Option String) (invitee : String) : Bool :=
  match o with
  | some v => strLower (strTrim v) != invitee
  | none => false

/-- Mirror of the QUOTE_ACCEPT guards (part_001 lines 950-991): unknown or
mismatching quote references drop; only the original RFQ signer may
accept its quote; duplicate accepts for an in-flight swap become
throttled retries; otherwise a fresh swap starts on `swap:trade_id`. -/
def handleQuoteAccept (quotes : List (String × QuoteRec))
    (msgQuoteId msgRfqId msgTradeId msgSigner : String)
    (existingInvitee pendingInvitee : Option String) : QuoteAcceptAction :=
  let quoteId := strLower (strTrim msgQuoteId)
  let rfqId := strLower (strTrim msgRfqId)
  match quotes.lookup quoteId with
  | none => QuoteAcceptAction.drop
  | some known =>
    if known.rfqId ≠ rfqId then QuoteAcceptAction.drop
    else if known.tradeId ≠ msgTradeId then QuoteAcceptAction.drop
    else
      let swapChannel := "swap:" ++ msgTradeId
      let inviteePubKey := strLower (strTrim msgSigner)
      if inviteePubKey = "" then QuoteAcceptAction.drop
      else if known.rfqSigner ≠ "" ∧ inviteePubKey ≠ strLower (strTrim known.rfqSigner) then
        QuoteAcceptAction.drop
      else if inviteeMismatch existingInvitee inviteePubKey then QuoteAcceptAction.drop
      else if inviteeMismatch pendingInvitee inviteePubKey then QuoteAcceptAction.drop
      else if existingInvitee.isSome ∨ pendingInvitee.isSome then QuoteAcceptAction.retryResend
      else QuoteAcceptAction.startSwap swapChannel inviteePubKey

/-! ## Swap resend task (src/unnamed/part_001, startSwapResender) -/

/-- Trade state machine states (src/swap/constants.js STATE). -/
inductive TState where
  | NEW
  | TERMS
  | ACCEPTED
  | INVOICE
  | ESCROW
  | CLAIMED
  | REFUNDED
  | CANCELED
  deriving Repr, DecidableEq

/-- Per-swap maker context fields consulted by the resend task. -/
structure SwapCtxR where
  tradeState : TState
  done : Bool
  deadlineMs : Int
  lastRemoteActivityAtMs : Int
  lastTermsSendAtMs : Int
  lastInvoiceSendAtMs : Int
  lastEscrowSendAtMs : Int
  sentTerms : Bool
  sentInvoice : Bool
  sentEscrow : Bool
  lnPaid : Bool
  deriving Repr, DecidableEq

/-- Envelope resends a tick can emit. -/
inductive ResendKind where
  | terms
  | invoice
  | escrow
  deriving Repr, DecidableEq

/-- Observable outcome of one resender tick. -/
structure TickResult where
  timedOut : Bool
  sentCancel : Bool
  persistedReason : Option String
  leftChannel : Bool
  resends : List ResendKind
  ctx : SwapCtxR
  deriving Repr, DecidableEq

/-- Mirror of one interval callback of `startSwapResender` (part_001 lines
672-720) with cleanupSwap inlined on the timeout path: past the deadline
the maker emits CANCEL, persists the terminal reason and leaves the swap
channel; otherwise each stored envelope is re-sent only when its cadence
floor has elapsed, the floor widening when the peer has been silent for
more than 30 s. -/
def resenderTick (swapResendMs swapTimeoutSec : Int) (ctx : SwapCtxR) (nowMs : Int) :
    TickResult :=
  if ctx.done then
    { timedOut := false, sentCancel := false, persistedReason := none,
      leftChannel := false, resends := [], ctx := ctx }
  else if nowMs > ctx.deadlineMs then
    { timedOut := true, sentCancel := true,
      persistedReason := some ("swap timeout (swap-timeout-sec=" ++ toString swapTimeoutSec ++ ")"),
      leftChannel := true,
      resends := [], ctx := { ctx with done := true } }
  else
    let idleOver30s : Bool :=
      if ctx.lastRemoteActivityAtMs > 0 then decide (nowMs - ctx.lastRemoteActivityAtMs > 30000)
      else true
    let termsCadenceMs := if idleOver30s then max swapResendMs 20000 else max swapResendMs 10000
    let invoiceCadenceMs := if idleOver30s then max swapResendMs 25000 else max swapResendMs 12000
    let doTerms : Bool := decide (ctx.tradeState = TState.TERMS) && ctx.sentTerms &&
      decide (nowMs - ctx.lastTermsSendAtMs ≥ termsCadenceMs)
    let doInvoice : Bool :=
      (decide (ctx.tradeState = TState.ACCEPTED) || decide (ctx.tradeState = TState.INVOICE) ||
        decide (ctx.tradeState = TState.ESCROW)) && ctx.sentInvoice && !ctx.lnPaid &&
      decide (nowMs - ctx.lastInvoiceSendAtMs ≥ invoiceCadenceMs)
    let doEscrow : Bool :=
      (decide (ctx.tradeState = TState.INVOICE) || decide (ctx.tradeState = TState.ESCROW)) &&
      ctx.sentEscrow && !ctx.lnPaid &&
      decide (nowMs - ctx.lastEscrowSendAtMs ≥ invoiceCadenceMs)
    { timedOut := false, sentCancel := false, persistedReason := none, leftChannel := false,
      resends :=
        (if doTerms then [ResendKind.terms] else []) ++
        (if doInvoice then [ResendKind.invoice] else []) ++
        (if doEscrow then [ResendKind.escrow] else []),
      ctx := { ctx with
        lastTermsSendAtMs := if doTerms then nowMs else ctx.lastTermsSendAtMs,
        lastInvoiceSendAtMs := if doInvoice then nowMs else ctx.lastInvoiceSendAtMs,
        lastEscrowSendAtMs := if doEscrow then nowMs else ctx.lastEscrowSendAtMs } }

/-! ## Escrow-creation failure handling (src/unnamed/part_001) -/

/-- Durable per-trade receipt fields the rollback claim is about. -/
structure TradeReceipt where
  state : Option String
  lnPaymentHashHex : Option String
  lastError : Option String
  deriving Repr, DecidableEq

/-- Mirror of the QUOTE_ACCEPT startup try/catch (part_001 lines
979-990 and 1057-1141): the lock is marked `accepting`, then `swapping`
once invite send / channel join / TERMS send succeed; if any of those
fails, the catch rolls the lock back to `quoted` and clears invitee, swap
channel and deadline so a clean retry is possible. -/
def quoteAcceptStartupStep {Q : Type} (lock : RfqLock Q) (nowMs swapTimeoutSec : Int)
    (swapChannel inviteePubKey : String) (startupFails : Bool) : RfqLock Q × Bool :=
  let accepting := { lock with
    state := LockState.accepting
    inviteePubKey := some inviteePubKey
    swapChannel := some swapChannel
    lockDeadlineMs := nowMs + (max 1 swapTimeoutSec) * 1000
    lastSeenMs := nowMs }
  if startupFails then
    ({ accepting with
        state := LockState.quoted
        inviteePubKey := none
        swapChannel := none
        lockDeadlineMs := 0 }, false)
  else
    ({ accepting with state := LockState.swapping }, true)

/-- Mirror of the receipt writes of `createInvoiceAndEscrow` with the
fallible LN invoice and on-chain escrow transaction steps made explicit;
a failure surfaces as a thrown error (`some msg`), leaving whatever
receipts were already written. -/
def createInvoiceAndEscrowStep (r : TradeReceipt) (paymentHashHex : String)
    (invoiceOk escrowTxOk : Bool) : TradeReceipt × Option String :=
  if ¬ invoiceOk then (r, some "LN invoice failed")
  else
    let r1 := { r with lnPaymentHashHex := some paymentHashHex, state := some "INVOICE" }
    if ¬ escrowTxOk then (r1, some "Tx failed")
    else ({ r1 with state := some "ESCROW" }, none)

/-- Mirror of the ACCEPT branch of the swap-channel handler (part_001
lines 748-750) under the outer catch (lines 1143-1145): an error thrown
by `createInvoiceAndEscrow` is only debug-logged there, so the RFQ lock
and the stored `last_error` are left untouched. -/
def onAcceptMessage {Q : Type} (lock : RfqLock Q) (r : TradeReceipt)
    (paymentHashHex : String) (invoiceOk escrowTxOk : Bool) : RfqLock Q × TradeReceipt :=
  let step := createInvoiceAndEscrowStep r paymentHashHex invoiceOk escrowTxOk
  match step.2 with
  | some _ => (lock, step.1)
  | none => (lock, step.1)


/-- The per-envelope last-send timestamp consulted by the resend task. -/
def lastSendOf (ctx : SwapCtxR) (k : ResendKind) : Int :=
  match k with
  | ResendKind.terms => ctx.lastTermsSendAtMs
  | ResendKind.invoice => ctx.lastInvoiceSendAtMs
  | ResendKind.escrow => ctx.lastEscrowSendAtMs


/-! ## verifyLnUsdtEscrowOnchain (src/src/prompt/redact.js, taker guard) -/

/-- `normalizeHex` from the source: trim then lowercase. -/
def normalizeHex (s : String) : String := strLower (strTrim s)

/-- `normalizeB58` from the source: trim. -/
def normalizeB58 (s : String) : String := strTrim s

/-- The regex check for a 32-byte lowercase hex string. -/
def isHex64 (s : String) : Bool :=
  s.length = 64 && s.data.all (fun c => c.isDigit || ('a' ≤ c && c ≤ 'f'))

/-- The SOL_ESCROW_CREATED body fields consulted by the guard. -/
structure EscrowBody where
  payment_hash_hex : String
  program_id : String
  escrow_pda : String
  vault_ata : String
  mint : String
  amount : Nat
  refund_after_unix : Int
  recipient : String
  refund : String
  deriving Repr, DecidableEq

/-- On-chain escrow state as fetched and decoded at `confirmed`; pubkeys
are carried in their base58 form, exactly as the guard compares them. -/
structure ChainEscrowState where
  v : Nat
  status : Nat
  paymentHashHex : String
  mintB58 : String
  recipientB58 : String
  refundB58 : String
  vaultB58 : String
  netAmount : Nat
  feeAmount : Nat
  refundAfter : Int
  deriving Repr, DecidableEq

/-- The vault associated token account as fetched from chain. -/
structure TokenAccount where
  ownerB58 : String
  mintB58 : String
  amount : Nat
  deriving Repr, DecidableEq

/-- The `{ok, error?}` result of the guard. -/
structure VerifyResult where
  ok : Bool
  error : Option String
  deriving Repr, DecidableEq

/-- Mirror of `verifyLnUsdtEscrowOnchain`: base58 parsing, PDA and vault
ATA derivation and the chain fetches are abstracted as inputs
(`parseB58Ok`, `derivePda`, `deriveVault`, `fetchState`, `fetchVault`);
every check runs in source order and the first mismatch returns
`ok := false` with its error message. -/
def verifyLnUsdtEscrowOnchain
    (parseB58Ok : String → Bool)
    (derivePda : String → String → String)
    (deriveVault : String → String → String)
    (body : EscrowBody)
    (fetchState : Option ChainEscrowState)
    (fetchVault : Option TokenAccount) : VerifyResult :=
  let paymentHashHex := normalizeHex body.payment_hash_hex
  if ¬ isHex64 paymentHashHex then
    { ok := false, error := some "escrowBody.payment_hash_hex must be 32-byte hex" }
  else if ¬ parseB58Ok (normalizeB58 body.program_id) then
    { ok := false, error := some "escrowBody.program_id must be base58" }
  else if ¬ parseB58Ok (normalizeB58 body.mint) then
    { ok := false, error := some "escrowBody.mint must be base58" }
  else
    let programId := normalizeB58 body.program_id
    let mint := normalizeB58 body.mint
    let pda := derivePda paymentHashHex programId
    if normalizeB58 body.escrow_pda ≠ pda then
      { ok := false, error := some "escrow_pda mismatch (derived vs message)" }
    else
      let vaultAta := deriveVault pda mint
      if normalizeB58 body.vault_ata ≠ vaultAta then
        { ok := false, error := some "vault_ata mismatch (derived vs message)" }
      else
        match fetchState with
        | none => { ok := false, error := some "escrow account not found on chain" }
        | some st =>
          if st.v ≠ 2 then
            { ok := false, error := some "escrow state version unsupported" }
          else if st.status ≠ 0 then
            { ok := false, error := some "escrow is not active" }
          else if normalizeHex st.paymentHashHex ≠ paymentHashHex then
            { ok := false, error := some "escrow payment_hash mismatch vs message" }
          else if st.mintB58 ≠ normalizeB58 body.mint then
            { ok := false, error := some "escrow mint mismatch vs message" }
          else if st.recipientB58 ≠ normalizeB58 body.recipient then
            { ok := false, error := some "escrow recipient mismatch vs message" }
          else if st.refundB58 ≠ normalizeB58 body.refund then
            { ok := false, error := some "escrow refund mismatch vs message" }
          else if st.vaultB58 ≠ normalizeB58 body.vault_ata then
            { ok := false, error := some "escrow vault mismatch vs message" }
          else if st.netAmount ≠ body.amount then
            { ok := false, error := some "escrow net amount mismatch vs message" }
          else if st.refundAfter ≠ body.refund_after_unix then
            { ok := false, error := some "escrow refund_after mismatch vs message" }
          else
            match fetchVault with
            | none => { ok := false, error := some "failed to load vault ATA" }
            | some va =>
              if va.ownerB58 ≠ pda then
                { ok := false, error := some "vault ATA owner mismatch vs escrow PDA" }
              else if va.mintB58 ≠ mint then
                { ok := false, error := some "vault ATA mint mismatch vs escrow mint" }
              else if va.amount ≠ body.amount + st.feeAmount then
                { ok := false, error := some "vault ATA amount mismatch" }
              else
                { ok := true, error := none }

/-! ## Telemetry redaction (src/src/prompt/redact.js) -/

/- JSON-like telemetry values: arrays and objects as their own mutual
types so that structural recursion and induction stay available. -/
mutual
inductive JVal where
  | jnull
  | jstr (s : String)
  | jnum (n : Int)
  | jbool (b : Bool)
  | jbig (n : Int)
  | jarr (xs : JArr)
  | jobj (fs : JObj)
inductive JArr where
  | nil
  | cons (hd : JVal) (tl : JArr)
inductive JObj where
  | nil
  | cons (key : String) (val : JVal) (tl : JObj)
end

/-- `String.prototype.includes(pat)`. -/
def strContains (s pat : String) : Bool :=
  (List.range (s.length + 1)).any (fun i => pat.data.isPrefixOf (s.data.drop i))

/-- `String.prototype.endsWith(pat)`. -/
def strEndsWith (s pat : String) : Bool := pat.data.isSuffixOf s.data

/-- Mirror of `shouldRedactKey(key)`: the lowercase key is matched against
the secret / swap-sensitive patterns of the source, in source order. -/
def shouldRedactKey (key : String) : Bool :=
  let k := strLower key
  strContains k "token" || strContains k "api_key" || strContains k "apikey" ||
  strContains k "authorization" || k == "auth" ||
  strContains k "macaroon" || strContains k "seed" || strContains k "password" ||
  strContains k "preimage" ||
  k == "invite" || k == "invite_b64" || strEndsWith k "_invite_b64" ||
  k == "welcome" || k == "welcome_b64" || strEndsWith k "_welcome_b64"

/-- Mirror of `truncateString(s, max)`. -/
def truncateString (maxLen : Nat) (s : String) : String :=
  if s.length ≤ maxLen then s
  else String.mk (s.data.take maxLen) ++ "…<truncated " ++ toString (s.length - maxLen) ++ " chars>"

/- Mirror of redactSensitive(value, maxString): strings are truncated,
bigints stringified, arrays mapped, and object entries with a sensitive
key replaced by the literal placeholder. -/
mutual
def redactSensitive (maxString : Nat) : JVal → JVal
  | JVal.jnull => JVal.jnull
  | JVal.jstr s => JVal.jstr (truncateString maxString s)
  | JVal.jnum n => JVal.jnum n
  | JVal.jbool b => JVal.jbool b
  | JVal.jbig n => JVal.jstr (toString n)
  | JVal.jarr xs => JVal.jarr (redactArr maxString xs)
  | JVal.jobj fs => JVal.jobj (redactObj maxString fs)
def redactArr (maxString : Nat) : JArr → JArr
  | JArr.nil => JArr.nil
  | JArr.cons x xs => JArr.cons (redactSensitive maxString x) (redactArr maxString xs)
def redactObj (maxString : Nat) : JObj → JObj
  | JObj.nil => JObj.nil
  | JObj.cons k v fs =>
    if shouldRedactKey k then JObj.cons k (JVal.jstr "<redacted>") (redactObj maxString fs)
    else JObj.cons k (redactSensitive maxString v) (redactObj maxString fs)
end

/-- The redaction placeholder literal. -/
def isRedactedMark : JVal → Bool
  | JVal.jstr s => s == "<redacted>"
  | _ => false

/- No sensitive key maps to anything but the placeholder, at any depth. -/
mutual
def noLeaksVal : JVal → Bool
  | JVal.jarr xs => noLeaksArr xs
  | JVal.jobj fs => noLeaksObj fs
  | _ => true
def noLeaksArr : JArr → Bool
  | JArr.nil => true
  | JArr.cons x xs => noLeaksVal x && noLeaksArr xs
def noLeaksObj : JObj → Bool
  | JObj.nil => true
  | JObj.cons k v fs =>
    ((!shouldRedactKey k) || isRedactedMark v) && noLeaksVal v && noLeaksObj fs
end

/-- First-match lookup in an object, in entry order. -/
def lookupObj : JObj → String → Option JVal
  | JObj.nil, _ => none
  | JObj.cons k v fs, key => if k = key then some v else lookupObj fs key

/-! ## Waiting-terms replay bookkeeping (modelled from the spec)

The implementing file `src/prompt/tradeAuto.js` (TradeAutoManager) is
not under src/; only its test suite is. The definitions below are
modelled from the spec, section 4.9. -/

/-- Modelled from the spec: an observed sidechannel event of the trade
log, in log order (missing: TradeAutoManager event ingestion). -/
structure ObservedEvent where
  seq : Nat
  kind : String
  tradeId : String
  quoteId : String
  deriving Repr, DecidableEq

/-- Modelled from the spec: the most recent quote_id for a trade is the
quote_id of the last QUOTE_ACCEPT observed for that trade_id (missing:
TradeAutoManager waiting_terms bookkeeping). -/
def latestQuoteAcceptId (tradeId : String) (events : List ObservedEvent) : Option String :=
  events.foldl
    (fun acc e =>
      if e.tradeId = tradeId ∧ e.kind = "swap.quote_accept" then some e.quoteId else acc)
    none

/-- A replayed QUOTE_ACCEPT envelope, as far as the claim consults it. -/
structure ReplayMsg where
  kind : String
  tradeId : String
  quoteId : String
  deriving Repr, DecidableEq

/-- Modelled from the spec: the waiting-terms replay re-emits the latest
QUOTE_ACCEPT for the trade (missing: TradeAutoManager replay emission). -/
def waitingTermsReplay (tradeId : String) (events : List ObservedEvent) : Option ReplayMsg :=
  (latestQuoteAcceptId tradeId events).map
    (fun qid => { kind := "swap.quote_accept", tradeId := tradeId, quoteId := qid })

/-- Waiting-terms ping bookkeeping. -/
structure PingState where
  pings : Nat
  lastPingAtMs : Int
  deriving Repr, DecidableEq

/-- Modelled from the spec: one waiting-terms poll emits a replay only
when the ping count is below `waiting_terms_max_pings` and
`waiting_terms_ping_cooldown_ms` has elapsed since the previous ping
(missing: TradeAutoManager poll loop). -/
def waitingTermsPingStep (cooldownMs : Int) (maxPings : Nat) (st : PingState) (nowMs : Int)
    (tradeId : String) (events : List ObservedEvent) : Option ReplayMsg × PingState :=
  if st.pings < maxPings ∧ nowMs - st.lastPingAtMs ≥ cooldownMs then
    match waitingTermsReplay tradeId events with
    | some msg => (some msg, { pings := st.pings + 1, lastPingAtMs := nowMs })
    | none => (none, st)
  else (none, st)


/-- The reposted-trade event log of the waiting-terms replay test
(part_000, test: waiting_terms replays latest quote_accept), with quote
ids 1*64 and then 2*64. -/
def c8events : List ObservedEvent :=
  [ { seq := 1, kind := "swap.rfq", tradeId := "swap_test_5", quoteId := "" }
  , { seq := 2, kind := "swap.quote", tradeId := "swap_test_5",
      quoteId := String.mk (List.replicate 64 '1') }
  , { seq := 3, kind := "swap.quote_accept", tradeId := "swap_test_5",
      quoteId := String.mk (List.replicate 64 '1') }
  , { seq := 4, kind := "swap.swap_invite", tradeId := "swap_test_5", quoteId := "" }
  , { seq := 5, kind := "swap.quote", tradeId := "swap_test_5",
      quoteId := String.mk (List.replicate 64 '2') }
  , { seq := 6, kind := "swap.quote_accept", tradeId := "swap_test_5",
      quoteId := String.mk (List.replicate 64 '2') }
  , { seq := 7, kind := "swap.swap_invite", tradeId := "swap_test_5", quoteId := "" } ]


/-- A concrete SOL_ESCROW_CREATED body used to exercise the guard. -/
def c1body : EscrowBody :=
  { payment_hash_hex := String.mk (List.replicate 64 'a')
    program_id := "prog"
    escrow_pda := "PDA1"
    vault_ata := "VAULT1"
    mint := "mintpk"
    amount := 1000000
    refund_after_unix := 1234
    recipient := "rcpt"
    refund := "rfnd" }

/-- The matching on-chain state for `c1body`. -/
def c1state : ChainEscrowState :=
  { v := 2
    status := 0
    paymentHashHex := String.mk (List.replicate 64 'a')
    mintB58 := "mintpk"
    recipientB58 := "rcpt"
    refundB58 := "rfnd"
    vaultB58 := "VAULT1"
    netAmount := 1000000
    feeAmount := 10000
    refundAfter := 1234 }

/-- The matching vault token account for `c1body`. -/
def c1vault : TokenAccount :=
  { ownerB58 := "PDA1"
    mintB58 := "mintpk"
    amount := 1010000 }

end IntercomSwap

namespace IntercomSwap

/-! ## Helper lemmas about buffer slices and little-endian reads -/

/-- A `subarray` slice is the pointwise read of `n` bytes from offset `a`. -/
theorem bufSub_eq_map (data : List Nat) (a n : Nat) (h : a + n ≤ data.length) :
    bufSub data a (a + n) = (List.range n).map (fun j => data.getD (a + j) 0) := by
  unfold bufSub
  have hn : a + n - a = n := by omega
  rw [hn]
  apply List.ext_getElem
  · simp
    omega
  · intro i h1 h2
    have hlt : a + i < data.length := by
      simp at h1
      omega
    simp [List.getD_eq_getElem?_getD, List.getElem?_eq_getElem hlt]

/-- The little-endian fold equals the positional byte sum. -/
theorem leFold_eq_sum (l : List Nat) :
    leFold l = ∑ k ∈ Finset.range l.length, l.getD k 0 * 256 ^ k := by
  induction l with
  | nil => simp [leFold]
  | cons b t ih =>
    have h1 : leFold (b :: t) = leFold t * 256 + b := rfl
    rw [h1, ih, List.length_cons, Finset.sum_range_succ']
    simp only [List.getD_cons_succ, List.getD_cons_zero, pow_zero, mul_one]
    rw [Finset.sum_mul]
    congr 1
    apply Finset.sum_congr rfl
    intro k _
    ring

/-- Reading the `k`-th element of a mapped range. -/
theorem getD_map_range (f : Nat → Nat) (n k : Nat) (hk : k < n) :
    ((List.range n).map f).getD k 0 = f k := by
  rw [List.getD_eq_getElem?_getD]
  simp [List.getElem?_map, List.getElem?_range hk]

/-- Reading an unsigned 64-bit little-endian value from offset `i`. -/
theorem bufReadU64LE_eq_sum (data : List Nat) (i : Nat) (h : i + 8 ≤ data.length) :
    bufReadU64LE data i = ∑ k ∈ Finset.range 8, data.getD (i + k) 0 * 256 ^ k := by
  unfold bufReadU64LE
  rw [bufSub_eq_map data i 8 h, leFold_eq_sum]
  simp only [List.length_map, List.length_range]
  apply Finset.sum_congr rfl
  intro k hk
  rw [getD_map_range _ _ _ (Finset.mem_range.mp hk)]

/-- Reading an unsigned 16-bit little-endian value from offset `i`. -/
theorem bufReadU16LE_eq_sum (data : List Nat) (i : Nat) (h : i + 2 ≤ data.length) :
    bufReadU16LE data i = ∑ k ∈ Finset.range 2, data.getD (i + k) 0 * 256 ^ k := by
  unfold bufReadU16LE
  rw [bufSub_eq_map data i 2 h, leFold_eq_sum]
  simp only [List.length_map, List.length_range]
  apply Finset.sum_congr rfl
  intro k hk
  rw [getD_map_range _ _ _ (Finset.mem_range.mp hk)]

end IntercomSwap

namespace IntercomSwap

/-! ## Claim C2: decodeEscrowState v2 layout -/

/-- C2: any buffer whose first byte is 2 and whose length is at least 221
decodes to exactly the v2 escrow layout fields at the specified offsets
(status at 1, payment_hash at 2..33, recipient at 34..65, refund at
66..97, refund_after as LE i64 at 98, mint at 106..137, net_amount as LE
u64 at 138, fee_amount as LE u64 at 146, fee_bps as LE u16 at 154,
fee_collector at 156..187, vault at 188..219, bump at 220); v2 buffers
shorter than 221 bytes and buffers with an unsupported version byte
produce an error. -/
theorem decodeEscrowState_v2_spec :
    (∀ data : List Nat, bufReadU8 data 0 = 2 → 221 ≤ data.length →
      decodeEscrowState data = Except.ok
        { v := 2
          status := data.getD 1 0
          paymentHash := (List.range 32).map (fun j => data.getD (2 + j) 0)
          recipient := (List.range 32).map (fun j => data.getD (34 + j) 0)
          refund := (List.range 32).map (fun j => data.getD (66 + j) 0)
          refundAfter :=
            (if (∑ k ∈ Finset.range 8, data.getD (98 + k) 0 * 256 ^ k) < 2 ^ 63
             then ((∑ k ∈ Finset.range 8, data.getD (98 + k) 0 * 256 ^ k : Nat) : Int)
             else ((∑ k ∈ Finset.range 8, data.getD (98 + k) 0 * 256 ^ k : Nat) : Int) - 2 ^ 64)
          mint := (List.range 32).map (fun j => data.getD (106 + j) 0)
          netAmount := ∑ k ∈ Finset.range 8, data.getD (138 + k) 0 * 256 ^ k
          feeAmount := ∑ k ∈ Finset.range 8, data.getD (146 + k) 0 * 256 ^ k
          feeBps := ∑ k ∈ Finset.range 2, data.getD (154 + k) 0 * 256 ^ k
          feeCollector := some ((List.range 32).map (fun j => data.getD (156 + j) 0))
          vault := (List.range 32).map (fun j => data.getD (188 + j) 0)
          bump := data.getD 220 0 })
  ∧ (∀ data : List Nat, bufReadU8 data 0 = 2 → data.length < 221 →
      ∃ e, decodeEscrowState data = Except.error e)
  ∧ (∀ data : List Nat, bufReadU8 data 0 ≠ 1 → bufReadU8 data 0 ≠ 2 →
      ∃ e, decodeEscrowState data = Except.error e) := by
  refine ⟨?_, ?_, ?_⟩
  · intro data hv hlen
    have hv' : data.getD 0 0 = 2 := hv
    have hnl : ¬ data.length < 221 := by omega
    have e1 := bufSub_eq_map data 2 32 (by omega)
    have e2 := bufSub_eq_map data 34 32 (by omega)
    have e3 := bufSub_eq_map data 66 32 (by omega)
    have e4 := bufSub_eq_map data 106 32 (by omega)
    have e5 := bufSub_eq_map data 156 32 (by omega)
    have e6 := bufSub_eq_map data 188 32 (by omega)
    have n1 := bufReadU64LE_eq_sum data 138 (by omega)
    have n2 := bufReadU64LE_eq_sum data 146 (by omega)
    have n3 := bufReadU16LE_eq_sum data 154 (by omega)
    have n4 := bufReadU64LE_eq_sum data 98 (by omega)
    simp only [decodeEscrowState, bufReadU8, bufReadI64LE, hv', hnl, reduceIte, if_false]
    rw [n4, n1, n2, n3]
    norm_num [e1, e2, e3, e4, e5, e6]
  · intro data hv hlen
    have hv' : data.getD 0 0 = 2 := hv
    simp only [decodeEscrowState, bufReadU8, hv', reduceIte]
    rw [if_pos hlen]
    exact ⟨_, rfl⟩
  · intro data h1 h2
    have h1' : ¬ (data.getD 0 0 = 1) := h1
    have h2' : ¬ (data.getD 0 0 = 2) := h2
    simp only [decodeEscrowState, bufReadU8]
    rw [if_neg h1', if_neg h2']
    exact ⟨_, rfl⟩

set_option maxRecDepth 8000 in
/-- Witness for C2 at concrete buffers. -/
theorem decodeEscrowState_v2_spec_witness :
    (∃ r, decodeEscrowState (2 :: List.replicate 220 0) = Except.ok r)
  ∧ (∃ e, decodeEscrowState [2, 0, 0] = Except.error e)
  ∧ (∃ e, decodeEscrowState [7] = Except.error e) := by
  refine ⟨⟨_, decodeEscrowState_v2_spec.1 (2 :: List.replicate 220 0) (by rfl) (by decide)⟩,
    decodeEscrowState_v2_spec.2.1 [2, 0, 0] (by rfl) (by decide),
    decodeEscrowState_v2_spec.2.2 [7] (by decide) (by decide)⟩

/-! ## Claim C9: refund-window guardrail and TERMS refund timer -/

/-- An accepted `--solana-refund-after-sec` lies in the guardrail interval. -/
theorem checkSolRefundAfterSec_ok_bounds (s v : Int)
    (h : checkSolRefundAfterSec s = Except.ok v) : 3600 ≤ s ∧ s ≤ 604800 := by
  unfold checkSolRefundAfterSec SOL_REFUND_MIN_SEC SOL_REFUND_MAX_SEC at h
  by_contra hc
  rcases (by omega : s < 3600 ∨ s > 604800) with h1 | h1
  · rw [if_pos (by omega)] at h
    exact Except.noConfusion h
  · rw [if_neg (by omega), if_pos (by omega)] at h
    exact Except.noConfusion h

/-- C9: the maker startup guard accepts `--solana-refund-after-sec` exactly
on the interval [3600, 604800]; whenever the guard passed, every TERMS
body the maker builds carries `sol_refund_after_unix` between
`now + 3600` and `now + 604800`. -/
theorem solRefundGuard_spec :
    (∀ s : Int, (∃ v, checkSolRefundAfterSec s = Except.ok v) ↔ 3600 ≤ s ∧ s ≤ 604800)
  ∧ (∀ s nowSec termsValidSec btcSats : Int, ∀ usdtAmount solRecipient solRefund : String,
      ∀ pBps tBps : Int,
      checkSolRefundAfterSec s = Except.ok s →
      nowSec + 3600 ≤ (makeTermsBody nowSec s termsValidSec btcSats usdtAmount solRecipient
        solRefund pBps tBps).sol_refund_after_unix ∧
      (makeTermsBody nowSec s termsValidSec btcSats usdtAmount solRecipient
        solRefund pBps tBps).sol_refund_after_unix ≤ nowSec + 604800) := by
  constructor
  · intro s
    constructor
    · rintro ⟨v, hv⟩
      exact checkSolRefundAfterSec_ok_bounds s v hv
    · rintro ⟨h1, h2⟩
      refine ⟨s, ?_⟩
      simp only [checkSolRefundAfterSec, SOL_REFUND_MIN_SEC, SOL_REFUND_MAX_SEC]
      rw [if_neg (by omega), if_neg (by omega)]
  · intro s nowSec termsValidSec btcSats usdtAmount solRecipient solRefund pBps tBps h
    have hb := checkSolRefundAfterSec_ok_bounds s s h
    simp only [makeTermsBody]
    omega

/-- Witness for C9 at a concrete refund window of 72 hours. -/
theorem solRefundGuard_spec_witness :
    ((∃ v, checkSolRefundAfterSec 259200 = Except.ok v) ↔
      3600 ≤ (259200 : Int) ∧ (259200 : Int) ≤ 604800)
  ∧ (1000 + 3600 ≤ (makeTermsBody 1000 259200 300 10000 "1000000" "R" "F" 50 50).sol_refund_after_unix
      ∧ (makeTermsBody 1000 259200 300 10000 "1000000" "R" "F" 50 50).sol_refund_after_unix ≤ 1000 + 604800) :=
  ⟨solRefundGuard_spec.1 259200,
   solRefundGuard_spec.2 259200 1000 300 10000 "1000000" "R" "F" 50 50 (by rfl)⟩

/-! ## Claim C10: escrowctl fee-collector guard -/

/-- C10: for `config-init` / `config-set`, a provided `--fee-collector`
that differs from the signer pubkey makes the CLI die with an error
before any transaction request is built; with the flag omitted the fee
collector defaults to the signer pubkey. -/
theorem escrowctlConfigCmd_spec :
    (∀ (v signerPub : String) (feeBps : Int), strTrim v ≠ "" → strTrim v ≠ signerPub →
      ∃ e, escrowctlConfigCmd (some v) feeBps signerPub = Except.error e)
  ∧ (∀ (signerPub : String) (feeBps : Int),
      escrowctlConfigCmd none feeBps signerPub =
        Except.ok { feeCollector := signerPub, feeBps := feeBps }) := by
  constructor
  · intro v signerPub feeBps hne hdiff
    simp only [escrowctlConfigCmd, if_pos hne, ne_eq]
    rw [if_pos hdiff]
    exact ⟨_, rfl⟩
  · intro signerPub feeBps
    simp [escrowctlConfigCmd]

/-- Witness for C10 at concrete flag values. -/
theorem escrowctlConfigCmd_spec_witness :
    (∃ e, escrowctlConfigCmd (some "OtherPubkey111") 100 "SignerPubkey222" = Except.error e)
  ∧ (escrowctlConfigCmd none 100 "SignerPubkey222" =
      Except.ok { feeCollector := "SignerPubkey222", feeBps := 100 }) :=
  ⟨escrowctlConfigCmd_spec.1 "OtherPubkey111" "SignerPubkey222" 100 (by decide) (by decide),
   escrowctlConfigCmd_spec.2 "SignerPubkey222" 100⟩

end IntercomSwap

namespace IntercomSwap

/-! ## Claim C3: idempotent quote resend on RFQ repost -/

/-- C3: for an inbound RFQ whose computed lock key already has a lock: a
`quoted` lock holding a stored signed quote whose validity is still in
the future makes the maker re-send the identical stored QUOTE envelope
and keep the lock `quoted` (no new quote is built); an `accepting` or
`swapping` lock makes the maker send nothing and leave the lock state
unchanged. -/
theorem rfqLockIdempotentResend_spec :
    (∀ (Q : Type) (lock : RfqLock Q) (q : Q) (nowMs nowSec : Int),
      lock.state = LockState.quoted → lock.signedQuote = some q →
      lock.quoteValidUntilUnix > nowSec →
      handleRfqExistingLock lock nowMs nowSec =
        ({ lock with lastSeenMs := nowMs }, RfqExistingAction.resendQuote q))
  ∧ (∀ (Q : Type) (lock : RfqLock Q) (nowMs nowSec : Int),
      lock.state = LockState.accepting ∨ lock.state = LockState.swapping →
      handleRfqExistingLock lock nowMs nowSec =
        ({ lock with lastSeenMs := nowMs }, RfqExistingAction.dropInFlight)) := by
  constructor
  · intro Q lock q nowMs nowSec hstate hsq hvalid
    obtain ⟨st, tid, rs, qid, sq, qv, sc, ip, ld, ca, ls⟩ := lock
    simp only at hstate hsq
    subst hstate
    subst hsq
    simp [handleRfqExistingLock, hvalid]
  · intro Q lock nowMs nowSec hstate
    obtain ⟨st, tid, rs, qid, sq, qv, sc, ip, ld, ca, ls⟩ := lock
    simp only at hstate
    rcases hstate with h | h <;> subst h <;>
      simp [handleRfqExistingLock]

/-- Witness for C3 at concrete locks. -/
theorem rfqLockIdempotentResend_spec_witness :
    (handleRfqExistingLock (Q := String)
      { state := LockState.quoted
        tradeId := "t1"
        rfqSigner := "aa"
        quoteId := "q1"
        signedQuote := some "quoteEnvelope"
        quoteValidUntilUnix := 2000
        swapChannel := none
        inviteePubKey := none
        lockDeadlineMs := 0
        createdAtMs := 0
        lastSeenMs := 0 } 5000 1000 =
      ({ state := LockState.quoted
         tradeId := "t1"
         rfqSigner := "aa"
         quoteId := "q1"
         signedQuote := some "quoteEnvelope"
         quoteValidUntilUnix := 2000
         swapChannel := none
         inviteePubKey := none
         lockDeadlineMs := 0
         createdAtMs := 0
         lastSeenMs := 5000 }, RfqExistingAction.resendQuote "quoteEnvelope"))
  ∧ (handleRfqExistingLock (Q := String)
      { state := LockState.swapping
        tradeId := "t1"
        rfqSigner := "aa"
        quoteId := "q1"
        signedQuote := some "quoteEnvelope"
        quoteValidUntilUnix := 2000
        swapChannel := some "swap:t1"
        inviteePubKey := some "bb"
        lockDeadlineMs := 900
        createdAtMs := 0
        lastSeenMs := 0 } 5000 1000 =
      ({ state := LockState.swapping
         tradeId := "t1"
         rfqSigner := "aa"
         quoteId := "q1"
         signedQuote := some "quoteEnvelope"
         quoteValidUntilUnix := 2000
         swapChannel := some "swap:t1"
         inviteePubKey := some "bb"
         lockDeadlineMs := 900
         createdAtMs := 0
         lastSeenMs := 5000 }, RfqExistingAction.dropInFlight)) :=
  ⟨rfqLockIdempotentResend_spec.1 String _ "quoteEnvelope" 5000 1000 rfl rfl (by decide),
   rfqLockIdempotentResend_spec.2 String _ 5000 1000 (Or.inr rfl)⟩

/-! ## Claim C4: QUOTE_ACCEPT signer guard -/

/-- C4: a QUOTE_ACCEPT referencing a known quote proceeds (retry resend or
fresh swap start) only when its signer equals the RFQ signer recorded for
that quote; a QUOTE_ACCEPT from any other signer is dropped with no
envelope sent and no state change. -/
theorem quoteAcceptSignerGuard_spec :
    ∀ (quotes : List (String × QuoteRec)) (msgQuoteId msgRfqId msgTradeId msgSigner : String)
      (existingInvitee pendingInvitee : Option String) (known : QuoteRec),
      quotes.lookup (strLower (strTrim msgQuoteId)) = some known →
      known.rfqSigner ≠ "" →
      (handleQuoteAccept quotes msgQuoteId msgRfqId msgTradeId msgSigner existingInvitee
          pendingInvitee ≠ QuoteAcceptAction.drop →
        strLower (strTrim msgSigner) = strLower (strTrim known.rfqSigner))
      ∧ (strLower (strTrim msgSigner) ≠ strLower (strTrim known.rfqSigner) →
        handleQuoteAccept quotes msgQuoteId msgRfqId msgTradeId msgSigner existingInvitee
          pendingInvitee = QuoteAcceptAction.drop) := by
  intro quotes mq mr mt ms ei pi known hlookup hsig
  have hdrop : strLower (strTrim ms) ≠ strLower (strTrim known.rfqSigner) →
      handleQuoteAccept quotes mq mr mt ms ei pi = QuoteAcceptAction.drop := by
    intro hne
    simp only [handleQuoteAccept, hlookup]
    split_ifs <;> try rfl
    all_goals exact absurd (And.intro hsig hne) (by assumption)
  exact ⟨fun hp => by by_contra hne; exact hp (hdrop hne), hdrop⟩

/-- Witness for C4: a hijacking signer `bb` on a quote whose RFQ signer
was `aa` is dropped. -/
theorem quoteAcceptSignerGuard_spec_witness :
    handleQuoteAccept [("q1", (⟨"r1", "aa", "t1", 10000, "1000000", "R", "k"⟩ : QuoteRec))]
      "q1" "r1" "t1" "bb" none none = QuoteAcceptAction.drop :=
  (quoteAcceptSignerGuard_spec [("q1", (⟨"r1", "aa", "t1", 10000, "1000000", "R", "k"⟩ : QuoteRec))]
      "q1" "r1" "t1" "bb" none none (⟨"r1", "aa", "t1", 10000, "1000000", "R", "k"⟩ : QuoteRec)
      (by decide) (by decide)).2 (by decide)

end IntercomSwap

namespace IntercomSwap

/-! ## Claim C5: resend cadence, terminal stop, timeout cleanup -/

/-- Membership in a conditional singleton list forces the condition. -/
theorem mem_ite_singleton {α : Type} (b : Bool) (x k : α)
    (h : k ∈ (if b then [x] else [])) : b = true ∧ k = x := by
  cases b <;> simp_all

/-- C5: each tick of the per-swap resend task (a) emits no resends once
the trade state is CLAIMED, REFUNDED or CANCELED, (b) past the deadline
`start + swap_timeout_sec` emits CANCEL, persists the terminal reason and
leaves the swap channel, and (c) re-sends an envelope only when at least
10 s have passed since its last send, at least 20 s when the peer has
been silent for more than 30 s (or never heard). -/
theorem startSwapResender_spec :
    (∀ (rms tos : Int) (ctx : SwapCtxR) (now : Int),
      ctx.tradeState = TState.CLAIMED ∨ ctx.tradeState = TState.REFUNDED ∨
        ctx.tradeState = TState.CANCELED →
      (resenderTick rms tos ctx now).resends = [])
  ∧ (∀ (rms tos : Int) (ctx : SwapCtxR) (now : Int),
      ctx.done = false → now > ctx.deadlineMs →
      (resenderTick rms tos ctx now).sentCancel = true ∧
      (resenderTick rms tos ctx now).persistedReason.isSome = true ∧
      (resenderTick rms tos ctx now).leftChannel = true ∧
      (resenderTick rms tos ctx now).resends = [])
  ∧ (∀ (rms tos : Int) (ctx : SwapCtxR) (now : Int) (k : ResendKind),
      k ∈ (resenderTick rms tos ctx now).resends →
      10000 ≤ now - lastSendOf ctx k ∧
      ((ctx.lastRemoteActivityAtMs ≤ 0 ∨ 30000 < now - ctx.lastRemoteActivityAtMs) →
        20000 ≤ now - lastSendOf ctx k)) := by
  refine ⟨?_, ?_, ?_⟩
  · intro rms tos ctx now hterm
    by_cases h1 : ctx.done = true
    · simp [resenderTick, h1]
    · by_cases h2 : now > ctx.deadlineMs
      · simp [resenderTick, h1, h2]
      · rcases hterm with h | h | h <;>
          simp [resenderTick, h1, h2, h]
  · intro rms tos ctx now h0 h1
    simp only [resenderTick]
    rw [if_neg (by simp [h0]), if_pos h1]
    exact ⟨rfl, rfl, rfl, rfl⟩
  · intro rms tos ctx now k hk
    simp only [resenderTick] at hk
    by_cases h1 : ctx.done = true
    · rw [if_pos h1] at hk
      simp at hk
    · rw [if_neg h1] at hk
      by_cases h2 : now > ctx.deadlineMs
      · rw [if_pos h2] at hk
        simp at hk
      · rw [if_neg h2] at hk
        dsimp only at hk
        rw [List.mem_append, List.mem_append] at hk
        have floors : ∀ (lastSend lo hi : Int),
            now - lastSend ≥
              (if (if ctx.lastRemoteActivityAtMs > 0 then
                    decide (now - ctx.lastRemoteActivityAtMs > 30000) else true) = true
               then max rms hi else max rms lo) →
            10000 ≤ lo → 20000 ≤ hi →
            10000 ≤ now - lastSend ∧
            ((ctx.lastRemoteActivityAtMs ≤ 0 ∨ 30000 < now - ctx.lastRemoteActivityAtMs) →
              20000 ≤ now - lastSend) := by
          intro lastSend lo hi hgap hlo hhi
          constructor
          · by_cases hI : (if ctx.lastRemoteActivityAtMs > 0 then
                decide (now - ctx.lastRemoteActivityAtMs > 30000) else true) = true
            · rw [if_pos hI] at hgap
              have hm := le_max_right rms hi
              omega
            · rw [if_neg hI] at hgap
              have hm := le_max_right rms lo
              omega
          · intro hidle
            have hI : (if ctx.lastRemoteActivityAtMs > 0 then
                decide (now - ctx.lastRemoteActivityAtMs > 30000) else true) = true := by
              rcases hidle with h | h
              · rw [if_neg (by omega)]
              · by_cases hp : ctx.lastRemoteActivityAtMs > 0
                · rw [if_pos hp]
                  exact decide_eq_true h
                · rw [if_neg hp]
            rw [if_pos hI] at hgap
            have hm := le_max_right rms hi
            omega
        rcases hk with (hA | hB) | hC
        · obtain ⟨hb, rfl⟩ := mem_ite_singleton _ _ _ hA
          simp only [Bool.and_eq_true, decide_eq_true_eq] at hb
          obtain ⟨⟨hstate, hsent⟩, hgap⟩ := hb
          exact floors ctx.lastTermsSendAtMs 10000 20000 hgap (by omega) (by omega)
        · obtain ⟨hb, rfl⟩ := mem_ite_singleton _ _ _ hB
          simp only [Bool.and_eq_true, decide_eq_true_eq] at hb
          obtain ⟨⟨⟨hstate, hsent⟩, hpaid⟩, hgap⟩ := hb
          exact floors ctx.lastInvoiceSendAtMs 12000 25000 hgap (by omega) (by omega)
        · obtain ⟨hb, rfl⟩ := mem_ite_singleton _ _ _ hC
          simp only [Bool.and_eq_true, decide_eq_true_eq] at hb
          obtain ⟨⟨⟨hstate, hsent⟩, hpaid⟩, hgap⟩ := hb
          exact floors ctx.lastEscrowSendAtMs 12000 25000 hgap (by omega) (by omega)

end IntercomSwap

namespace IntercomSwap

/-- Witness for C5: a terminal-state tick emits nothing, a past-deadline
tick cancels / persists / leaves, and a due TERMS resend respects the
floor. -/
theorem startSwapResender_spec_witness :
    ((resenderTick 1200 300
        (⟨TState.CLAIMED, false, 100000, 1, 0, 0, 0, true, true, true, false⟩ : SwapCtxR)
        50000).resends = [])
  ∧ ((resenderTick 1200 300
        (⟨TState.TERMS, false, 300, 1, 0, 0, 0, true, false, false, false⟩ : SwapCtxR)
        50000).sentCancel = true ∧
      (resenderTick 1200 300
        (⟨TState.TERMS, false, 300, 1, 0, 0, 0, true, false, false, false⟩ : SwapCtxR)
        50000).persistedReason.isSome = true ∧
      (resenderTick 1200 300
        (⟨TState.TERMS, false, 300, 1, 0, 0, 0, true, false, false, false⟩ : SwapCtxR)
        50000).leftChannel = true ∧
      (resenderTick 1200 300
        (⟨TState.TERMS, false, 300, 1, 0, 0, 0, true, false, false, false⟩ : SwapCtxR)
        50000).resends = [])
  ∧ (10000 ≤ (15000 : Int) -
        lastSendOf (⟨TState.TERMS, false, 100000, 14000, 0, 0, 0, true, false, false, false⟩ : SwapCtxR)
          ResendKind.terms ∧
      (((⟨TState.TERMS, false, 100000, 14000, 0, 0, 0, true, false, false, false⟩ : SwapCtxR).lastRemoteActivityAtMs ≤ 0 ∨
        30000 < (15000 : Int) -
          (⟨TState.TERMS, false, 100000, 14000, 0, 0, 0, true, false, false, false⟩ : SwapCtxR).lastRemoteActivityAtMs) →
        20000 ≤ (15000 : Int) -
          lastSendOf (⟨TState.TERMS, false, 100000, 14000, 0, 0, 0, true, false, false, false⟩ : SwapCtxR)
            ResendKind.terms)) :=
  ⟨startSwapResender_spec.1 1200 300 _ 50000 (Or.inl rfl),
   startSwapResender_spec.2.1 1200 300 _ 50000 rfl (by decide),
   startSwapResender_spec.2.2 1200 300
     (⟨TState.TERMS, false, 100000, 14000, 0, 0, 0, true, false, false, false⟩ : SwapCtxR)
     15000 ResendKind.terms (by decide)⟩

/-! ## Claim C6: lock rollback on escrow-creation failure -/

/-- C6 as stated fails on the code: with the LN invoice created and the
on-chain escrow transaction failing after an accepted QUOTE_ACCEPT, the
RFQ lock stays `swapping` (it is not rolled back to `quoted`) and no
`last_error` is persisted; the error is only debug-logged by the outer
catch of the sidechannel-message handler. -/
theorem escrowFailureRollback_counterexample :
    ((onAcceptMessage (Q := String)
        { state := LockState.swapping
          tradeId := "t1"
          rfqSigner := "bb"
          quoteId := "q1"
          signedQuote := some "env"
          quoteValidUntilUnix := 2000
          swapChannel := some "swap:t1"
          inviteePubKey := some "bb"
          lockDeadlineMs := 300000
          createdAtMs := 0
          lastSeenMs := 0 }
        { state := some "ACCEPTED"
          lnPaymentHashHex := none
          lastError := none }
        "aa11" true false).1.state = LockState.swapping)
  ∧ ((onAcceptMessage (Q := String)
        { state := LockState.swapping
          tradeId := "t1"
          rfqSigner := "bb"
          quoteId := "q1"
          signedQuote := some "env"
          quoteValidUntilUnix := 2000
          swapChannel := some "swap:t1"
          inviteePubKey := some "bb"
          lockDeadlineMs := 300000
          createdAtMs := 0
          lastSeenMs := 0 }
        { state := some "ACCEPTED"
          lnPaymentHashHex := none
          lastError := none }
        "aa11" true false).2.lastError = none) :=
  ⟨rfl, rfl⟩

/-- C6 amended: after an accepted QUOTE_ACCEPT, a failure of the swap
startup path (SWAP_INVITE send / channel join / TERMS send) rolls the RFQ
lock back to `quoted` and clears invitee, swap channel and lock deadline
so a clean retry is possible; a failure of the on-chain escrow-creation
step in the ACCEPT path leaves the lock and the persisted `last_error`
untouched (it is only debug-logged). -/
theorem escrowFailureRollback_amended :
    (∀ (Q : Type) (lock : RfqLock Q) (nowMs swapTimeoutSec : Int) (sc ip : String),
      (quoteAcceptStartupStep lock nowMs swapTimeoutSec sc ip true).1.state = LockState.quoted ∧
      (quoteAcceptStartupStep lock nowMs swapTimeoutSec sc ip true).1.inviteePubKey = none ∧
      (quoteAcceptStartupStep lock nowMs swapTimeoutSec sc ip true).1.swapChannel = none ∧
      (quoteAcceptStartupStep lock nowMs swapTimeoutSec sc ip true).1.lockDeadlineMs = 0)
  ∧ (∀ (Q : Type) (lock : RfqLock Q) (r : TradeReceipt) (ph : String) (iOk eOk : Bool),
      (onAcceptMessage lock r ph iOk eOk).1 = lock ∧
      (onAcceptMessage lock r ph iOk eOk).2.lastError = r.lastError) := by
  constructor
  · intro Q lock nowMs t sc ip
    exact ⟨rfl, rfl, rfl, rfl⟩
  · intro Q lock r ph iOk eOk
    cases iOk <;> cases eOk <;>
      simp [onAcceptMessage, createInvoiceAndEscrowStep]

end IntercomSwap

namespace IntercomSwap

/-! ## Claim C1: taker-side on-chain escrow verification -/

/-- A missing on-chain escrow account always fails the guard. -/
theorem verifyEscrowOnchain_none_state
    (p : String → Bool) (dP dV : String → String → String)
    (body : EscrowBody) (fv : Option TokenAccount) :
    (verifyLnUsdtEscrowOnchain p dP dV body none fv).ok = false ∧
    (verifyLnUsdtEscrowOnchain p dP dV body none fv).error.isSome = true := by
  rcases hr : verifyLnUsdtEscrowOnchain p dP dV body none fv with ⟨ok, err⟩
  simp only [verifyLnUsdtEscrowOnchain] at hr
  split_ifs at hr <;> cases hr <;> exact ⟨rfl, rfl⟩

/-- An unloadable vault ATA always fails the guard. -/
theorem verifyEscrowOnchain_none_vault
    (p : String → Bool) (dP dV : String → String → String)
    (body : EscrowBody) (st : ChainEscrowState) :
    (verifyLnUsdtEscrowOnchain p dP dV body (some st) none).ok = false ∧
    (verifyLnUsdtEscrowOnchain p dP dV body (some st) none).error.isSome = true := by
  simp only [verifyLnUsdtEscrowOnchain]
  by_cases c1 : ¬ isHex64 (normalizeHex body.payment_hash_hex) = true
  · rw [if_pos c1]
    exact ⟨rfl, rfl⟩
  rw [if_neg c1]
  by_cases c2 : ¬ p (normalizeB58 body.program_id) = true
  · rw [if_pos c2]
    exact ⟨rfl, rfl⟩
  rw [if_neg c2]
  by_cases c3 : ¬ p (normalizeB58 body.mint) = true
  · rw [if_pos c3]
    exact ⟨rfl, rfl⟩
  rw [if_neg c3]
  by_cases c4 : normalizeB58 body.escrow_pda ≠
          dP (normalizeHex body.payment_hash_hex) (normalizeB58 body.program_id)
  · rw [if_pos c4]
    exact ⟨rfl, rfl⟩
  rw [if_neg c4]
  by_cases c5 : normalizeB58 body.vault_ata ≠
          dV (dP (normalizeHex body.payment_hash_hex) (normalizeB58 body.program_id))
            (normalizeB58 body.mint)
  · rw [if_pos c5]
    exact ⟨rfl, rfl⟩
  rw [if_neg c5]
  by_cases c6 : st.v ≠ 2
  · rw [if_pos c6]
    exact ⟨rfl, rfl⟩
  rw [if_neg c6]
  by_cases c7 : st.status ≠ 0
  · rw [if_pos c7]
    exact ⟨rfl, rfl⟩
  rw [if_neg c7]
  by_cases c8 : normalizeHex st.paymentHashHex ≠ normalizeHex body.payment_hash_hex
  · rw [if_pos c8]
    exact ⟨rfl, rfl⟩
  rw [if_neg c8]
  by_cases c9 : st.mintB58 ≠ normalizeB58 body.mint
  · rw [if_pos c9]
    exact ⟨rfl, rfl⟩
  rw [if_neg c9]
  by_cases c10 : st.recipientB58 ≠ normalizeB58 body.recipient
  · rw [if_pos c10]
    exact ⟨rfl, rfl⟩
  rw [if_neg c10]
  by_cases c11 : st.refundB58 ≠ normalizeB58 body.refund
  · rw [if_pos c11]
    exact ⟨rfl, rfl⟩
  rw [if_neg c11]
  by_cases c12 : st.vaultB58 ≠ normalizeB58 body.vault_ata
  · rw [if_pos c12]
    exact ⟨rfl, rfl⟩
  rw [if_neg c12]
  by_cases c13 : st.netAmount ≠ body.amount
  · rw [if_pos c13]
    exact ⟨rfl, rfl⟩
  rw [if_neg c13]
  by_cases c14 : st.refundAfter ≠ body.refund_after_unix
  · rw [if_pos c14]
    exact ⟨rfl, rfl⟩
  rw [if_neg c14]
  exact ⟨rfl, rfl⟩

/-- With both chain fetches present, a rejecting guard run carries an
error message. -/
theorem verifyEscrowOnchain_some_err
    (p : String → Bool) (dP dV : String → String → String)
    (body : EscrowBody) (st : ChainEscrowState) (va : TokenAccount)
    (h : (verifyLnUsdtEscrowOnchain p dP dV body (some st) (some va)).ok = false) :
    (verifyLnUsdtEscrowOnchain p dP dV body (some st) (some va)).error.isSome = true := by
  simp only [verifyLnUsdtEscrowOnchain] at h ⊢
  by_cases c1 : ¬ isHex64 (normalizeHex body.payment_hash_hex) = true
  · rw [if_pos c1]
    rfl
  rw [if_neg c1] at h ⊢
  by_cases c2 : ¬ p (normalizeB58 body.program_id) = true
  · rw [if_pos c2]
    rfl
  rw [if_neg c2] at h ⊢
  by_cases c3 : ¬ p (normalizeB58 body.mint) = true
  · rw [if_pos c3]
    rfl
  rw [if_neg c3] at h ⊢
  by_cases c4 : normalizeB58 body.escrow_pda ≠
          dP (normalizeHex body.payment_hash_hex) (normalizeB58 body.program_id)
  · rw [if_pos c4]
    rfl
  rw [if_neg c4] at h ⊢
  by_cases c5 : normalizeB58 body.vault_ata ≠
          dV (dP (normalizeHex body.payment_hash_hex) (normalizeB58 body.program_id))
            (normalizeB58 body.mint)
  · rw [if_pos c5]
    rfl
  rw [if_neg c5] at h ⊢
  by_cases c6 : st.v ≠ 2
  · rw [if_pos c6]
    rfl
  rw [if_neg c6] at h ⊢
  by_cases c7 : st.status ≠ 0
  · rw [if_pos c7]
    rfl
  rw [if_neg c7] at h ⊢
  by_cases c8 : normalizeHex st.paymentHashHex ≠ normalizeHex body.payment_hash_hex
  · rw [if_pos c8]
    rfl
  rw [if_neg c8] at h ⊢
  by_cases c9 : st.mintB58 ≠ normalizeB58 body.mint
  · rw [if_pos c9]
    rfl
  rw [if_neg c9] at h ⊢
  by_cases c10 : st.recipientB58 ≠ normalizeB58 body.recipient
  · rw [if_pos c10]
    rfl
  rw [if_neg c10] at h ⊢
  by_cases c11 : st.refundB58 ≠ normalizeB58 body.refund
  · rw [if_pos c11]
    rfl
  rw [if_neg c11] at h ⊢
  by_cases c12 : st.vaultB58 ≠ normalizeB58 body.vault_ata
  · rw [if_pos c12]
    rfl
  rw [if_neg c12] at h ⊢
  by_cases c13 : st.netAmount ≠ body.amount
  · rw [if_pos c13]
    rfl
  rw [if_neg c13] at h ⊢
  by_cases c14 : st.refundAfter ≠ body.refund_after_unix
  · rw [if_pos c14]
    rfl
  rw [if_neg c14] at h ⊢
  by_cases c15 : va.ownerB58 ≠
          dP (normalizeHex body.payment_hash_hex) (normalizeB58 body.program_id)
  · rw [if_pos c15]
    rfl
  rw [if_neg c15] at h ⊢
  by_cases c16 : va.mintB58 ≠ normalizeB58 body.mint
  · rw [if_pos c16]
    rfl
  rw [if_neg c16] at h ⊢
  by_cases c17 : va.amount ≠ body.amount + st.feeAmount
  · rw [if_pos c17]
    rfl
  rw [if_neg c17] at h ⊢
  exact absurd h (by simp)

/-- C1: the taker-side guard accepts a SOL_ESCROW_CREATED body exactly
when the payment hash is well-formed 32-byte hex, program id and mint
parse as base58, the recomputed escrow PDA and vault ATA equal those in
the message, the fetched on-chain state is at version 2 with active
status and matches the message payment hash, mint, recipient, refund,
vault, net amount and refund_after, and the vault token account is owned
by the PDA, has the escrow mint and holds net_amount + fee_amount; a
missing escrow account or vault always fails, and whenever the guard
fails it returns ok = false with a non-null error, so the taker must
not pay. -/
theorem verifyEscrowOnchain_spec :
    (∀ (p : String → Bool) (dP dV : String → String → String) (body : EscrowBody)
       (st : ChainEscrowState) (va : TokenAccount),
      ((verifyLnUsdtEscrowOnchain p dP dV body (some st) (some va)).ok = true ↔
        (isHex64 (normalizeHex body.payment_hash_hex) = true ∧
         p (normalizeB58 body.program_id) = true ∧
         p (normalizeB58 body.mint) = true ∧
         normalizeB58 body.escrow_pda =
           dP (normalizeHex body.payment_hash_hex) (normalizeB58 body.program_id) ∧
         normalizeB58 body.vault_ata =
           dV (dP (normalizeHex body.payment_hash_hex) (normalizeB58 body.program_id))
             (normalizeB58 body.mint) ∧
         st.v = 2 ∧ st.status = 0 ∧
         normalizeHex st.paymentHashHex = normalizeHex body.payment_hash_hex ∧
         st.mintB58 = normalizeB58 body.mint ∧
         st.recipientB58 = normalizeB58 body.recipient ∧
         st.refundB58 = normalizeB58 body.refund ∧
         st.vaultB58 = normalizeB58 body.vault_ata ∧
         st.netAmount = body.amount ∧
         st.refundAfter = body.refund_after_unix ∧
         va.ownerB58 =
           dP (normalizeHex body.payment_hash_hex) (normalizeB58 body.program_id) ∧
         va.mintB58 = normalizeB58 body.mint ∧
         va.amount = body.amount + st.feeAmount)))
  ∧ (∀ (p : String → Bool) (dP dV : String → String → String) (body : EscrowBody)
       (fv : Option TokenAccount),
      (verifyLnUsdtEscrowOnchain p dP dV body none fv).ok = false)
  ∧ (∀ (p : String → Bool) (dP dV : String → String → String) (body : EscrowBody)
       (st : ChainEscrowState),
      (verifyLnUsdtEscrowOnchain p dP dV body (some st) none).ok = false)
  ∧ (∀ (p : String → Bool) (dP dV : String → String → String) (body : EscrowBody)
       (fs : Option ChainEscrowState) (fv : Option TokenAccount),
      (verifyLnUsdtEscrowOnchain p dP dV body fs fv).ok = false →
      (verifyLnUsdtEscrowOnchain p dP dV body fs fv).error.isSome = true) := by
  refine ⟨?_, ?_, ?_, ?_⟩
  · intro p dP dV body st va
    constructor
    · intro h
      simp only [verifyLnUsdtEscrowOnchain] at h
      by_cases c1 : ¬ isHex64 (normalizeHex body.payment_hash_hex) = true
      · rw [if_pos c1] at h
        exact absurd h (by simp)
      rw [if_neg c1] at h
      by_cases c2 : ¬ p (normalizeB58 body.program_id) = true
      · rw [if_pos c2] at h
        exact absurd h (by simp)
      rw [if_neg c2] at h
      by_cases c3 : ¬ p (normalizeB58 body.mint) = true
      · rw [if_pos c3] at h
        exact absurd h (by simp)
      rw [if_neg c3] at h
      by_cases c4 : normalizeB58 body.escrow_pda ≠
          dP (normalizeHex body.payment_hash_hex) (normalizeB58 body.program_id)
      · rw [if_pos c4] at h
        exact absurd h (by simp)
      rw [if_neg c4] at h
      by_cases c5 : normalizeB58 body.vault_ata ≠
          dV (dP (normalizeHex body.payment_hash_hex) (normalizeB58 body.program_id))
            (normalizeB58 body.mint)
      · rw [if_pos c5] at h
        exact absurd h (by simp)
      rw [if_neg c5] at h
      by_cases c6 : st.v ≠ 2
      · rw [if_pos c6] at h
        exact absurd h (by simp)
      rw [if_neg c6] at h
      by_cases c7 : st.status ≠ 0
      · rw [if_pos c7] at h
        exact absurd h (by simp)
      rw [if_neg c7] at h
      by_cases c8 : normalizeHex st.paymentHashHex ≠ normalizeHex body.payment_hash_hex
      · rw [if_pos c8] at h
        exact absurd h (by simp)
      rw [if_neg c8] at h
      by_cases c9 : st.mintB58 ≠ normalizeB58 body.mint
      · rw [if_pos c9] at h
        exact absurd h (by simp)
      rw [if_neg c9] at h
      by_cases c10 : st.recipientB58 ≠ normalizeB58 body.recipient
      · rw [if_pos c10] at h
        exact absurd h (by simp)
      rw [if_neg c10] at h
      by_cases c11 : st.refundB58 ≠ normalizeB58 body.refund
      · rw [if_pos c11] at h
        exact absurd h (by simp)
      rw [if_neg c11] at h
      by_cases c12 : st.vaultB58 ≠ normalizeB58 body.vault_ata
      · rw [if_pos c12] at h
        exact absurd h (by simp)
      rw [if_neg c12] at h
      by_cases c13 : st.netAmount ≠ body.amount
      · rw [if_pos c13] at h
        exact absurd h (by simp)
      rw [if_neg c13] at h
      by_cases c14 : st.refundAfter ≠ body.refund_after_unix
      · rw [if_pos c14] at h
        exact absurd h (by simp)
      rw [if_neg c14] at h
      by_cases c15 : va.ownerB58 ≠
          dP (normalizeHex body.payment_hash_hex) (normalizeB58 body.program_id)
      · rw [if_pos c15] at h
        exact absurd h (by simp)
      rw [if_neg c15] at h
      by_cases c16 : va.mintB58 ≠ normalizeB58 body.mint
      · rw [if_pos c16] at h
        exact absurd h (by simp)
      rw [if_neg c16] at h
      by_cases c17 : va.amount ≠ body.amount + st.feeAmount
      · rw [if_pos c17] at h
        exact absurd h (by simp)
      rw [if_neg c17] at h
      exact ⟨not_not.mp c1, not_not.mp c2, not_not.mp c3, not_ne_iff.mp c4,
        not_ne_iff.mp c5, not_ne_iff.mp c6, not_ne_iff.mp c7, not_ne_iff.mp c8,
        not_ne_iff.mp c9, not_ne_iff.mp c10, not_ne_iff.mp c11, not_ne_iff.mp c12,
        not_ne_iff.mp c13, not_ne_iff.mp c14, not_ne_iff.mp c15, not_ne_iff.mp c16,
        not_ne_iff.mp c17⟩
    · rintro ⟨h1, h2, h3, h4, h5, h6, h7, h8, h9, h10, h11, h12, h13, h14, h15, h16, h17⟩
      simp only [verifyLnUsdtEscrowOnchain]
      rw [if_neg (not_not_intro h1), if_neg (not_not_intro h2), if_neg (not_not_intro h3),
        if_neg (not_not_intro h4), if_neg (not_not_intro h5), if_neg (not_not_intro h6),
        if_neg (not_not_intro h7), if_neg (not_not_intro h8), if_neg (not_not_intro h9),
        if_neg (not_not_intro h10), if_neg (not_not_intro h11), if_neg (not_not_intro h12),
        if_neg (not_not_intro h13), if_neg (not_not_intro h14), if_neg (not_not_intro h15),
        if_neg (not_not_intro h16), if_neg (not_not_intro h17)]
  · intro p dP dV body fv
    exact (verifyEscrowOnchain_none_state p dP dV body fv).1
  · intro p dP dV body st
    exact (verifyEscrowOnchain_none_vault p dP dV body st).1
  · intro p dP dV body fs fv h
    cases fs with
    | none => exact (verifyEscrowOnchain_none_state p dP dV body fv).2
    | some st =>
      cases fv with
      | none => exact (verifyEscrowOnchain_none_vault p dP dV body st).2
      | some va => exact verifyEscrowOnchain_some_err p dP dV body st va h

end IntercomSwap

namespace IntercomSwap

set_option maxRecDepth 8000 in
/-- Witness for C1: a fully matching escrow passes the guard; a missing
on-chain account fails it with an error. -/
theorem verifyEscrowOnchain_spec_witness :
    (verifyLnUsdtEscrowOnchain (fun _ => true) (fun _ _ => "PDA1") (fun _ _ => "VAULT1")
      c1body (some c1state) (some c1vault)).ok = true
  ∧ (verifyLnUsdtEscrowOnchain (fun _ => true) (fun _ _ => "PDA1") (fun _ _ => "VAULT1")
      c1body none none).ok = false
  ∧ (verifyLnUsdtEscrowOnchain (fun _ => true) (fun _ _ => "PDA1") (fun _ _ => "VAULT1")
      c1body none none).error.isSome = true :=
  ⟨(verifyEscrowOnchain_spec.1 (fun _ => true) (fun _ _ => "PDA1") (fun _ _ => "VAULT1")
      c1body c1state c1vault).mpr (by decide),
   verifyEscrowOnchain_spec.2.1 (fun _ => true) (fun _ _ => "PDA1") (fun _ _ => "VAULT1")
     c1body none,
   verifyEscrowOnchain_spec.2.2.2 (fun _ => true) (fun _ _ => "PDA1") (fun _ _ => "VAULT1")
     c1body none none
     (verifyEscrowOnchain_spec.2.1 (fun _ => true) (fun _ _ => "PDA1") (fun _ _ => "VAULT1")
       c1body none)⟩

end IntercomSwap

namespace IntercomSwap

/-! ## Claim C7: telemetry redaction -/

mutual
/-- Redacted values never leak a sensitive entry, at any depth. -/
theorem noLeaksVal_redact (m : Nat) : ∀ v : JVal, noLeaksVal (redactSensitive m v) = true
  | JVal.jnull => rfl
  | JVal.jstr _ => rfl
  | JVal.jnum _ => rfl
  | JVal.jbool _ => rfl
  | JVal.jbig _ => rfl
  | JVal.jarr xs => by
      simpa [redactSensitive, noLeaksVal] using noLeaksArr_redact m xs
  | JVal.jobj fs => by
      simpa [redactSensitive, noLeaksVal] using noLeaksObj_redact m fs
/-- Redacted arrays never leak a sensitive entry. -/
theorem noLeaksArr_redact (m : Nat) : ∀ xs : JArr, noLeaksArr (redactArr m xs) = true
  | JArr.nil => rfl
  | JArr.cons x xs => by
      simp [redactArr, noLeaksArr, noLeaksVal_redact m x, noLeaksArr_redact m xs]
/-- Redacted objects never leak a sensitive entry. -/
theorem noLeaksObj_redact (m : Nat) : ∀ fs : JObj, noLeaksObj (redactObj m fs) = true
  | JObj.nil => rfl
  | JObj.cons k v fs => by
      by_cases hk : shouldRedactKey k = true
      · simp [redactObj, hk, noLeaksObj, isRedactedMark, noLeaksVal,
          noLeaksObj_redact m fs]
      · simp [redactObj, hk, noLeaksObj, noLeaksVal_redact m v, noLeaksObj_redact m fs]
end

/-- Entry-wise effect of object redaction under first-match lookup. -/
theorem lookup_redactObj (m : Nat) :
    ∀ (fs : JObj) (k : String),
      lookupObj (redactObj m fs) k =
        (lookupObj fs k).map
          (fun v => if shouldRedactKey k then JVal.jstr "<redacted>" else redactSensitive m v)
  | JObj.nil, _ => rfl
  | JObj.cons k0 v0 fs, k => by
      by_cases hkey : shouldRedactKey k0 = true
      · by_cases he : k0 = k
        · subst he
          simp [redactObj, lookupObj, hkey]
        · simp [redactObj, lookupObj, hkey, he, lookup_redactObj m fs k]
      · by_cases he : k0 = k
        · subst he
          simp [redactObj, lookupObj, hkey]
        · simp [redactObj, lookupObj, hkey, he, lookup_redactObj m fs k]

/-- C7 as stated fails on the code: the key `signing_key` names a signing
key but matches none of the redaction patterns, so its secret value
passes through the redaction unchanged. -/
theorem redactSensitive_counterexample :
    shouldRedactKey "signing_key" = false ∧
    redactSensitive 2000 (JVal.jobj (JObj.cons "signing_key" (JVal.jstr "deadbeef") JObj.nil)) =
      JVal.jobj (JObj.cons "signing_key" (JVal.jstr "deadbeef") JObj.nil) := by
  constructor
  · decide
  · rfl

/-- C7 amended: redaction replaces, at every nesting depth, exactly the
entries whose lowercase key contains token / api_key / apikey /
authorization / macaroon / seed / password / preimage, equals auth, or is
an invite / welcome payload key (`invite`, `welcome`, the `_b64`
variants); every other entry is preserved up to string truncation, with
numbers and booleans kept as they are. -/
theorem redactSensitive_spec :
    (∀ (m : Nat) (v : JVal), noLeaksVal (redactSensitive m v) = true)
  ∧ (∀ (m : Nat) (fs : JObj) (k : String) (v : JVal),
      lookupObj fs k = some v → shouldRedactKey k = true →
      lookupObj (redactObj m fs) k = some (JVal.jstr "<redacted>"))
  ∧ (∀ (m : Nat) (fs : JObj) (k : String) (v : JVal),
      lookupObj fs k = some v → shouldRedactKey k = false →
      lookupObj (redactObj m fs) k = some (redactSensitive m v))
  ∧ (∀ (m : Nat) (n : Int), redactSensitive m (JVal.jnum n) = JVal.jnum n)
  ∧ (∀ (m : Nat) (b : Bool), redactSensitive m (JVal.jbool b) = JVal.jbool b)
  ∧ (∀ (m : Nat) (s : String), s.length ≤ m →
      redactSensitive m (JVal.jstr s) = JVal.jstr s) := by
  refine ⟨fun m v => noLeaksVal_redact m v, ?_, ?_, fun m n => rfl, fun m b => rfl, ?_⟩
  · intro m fs k v hl hk
    rw [lookup_redactObj m fs k, hl]
    simp [hk]
  · intro m fs k v hl hk
    rw [lookup_redactObj m fs k, hl]
    simp [hk]
  · intro m s hs
    simp [redactSensitive, truncateString, hs]

/-- Witness for C7: a preimage entry is replaced by the placeholder while
a harmless neighbour survives. -/
theorem redactSensitive_spec_witness :
    lookupObj (redactObj 2000
        (JObj.cons "preimage" (JVal.jstr "deadbeef")
          (JObj.cons "note" (JVal.jstr "hello") JObj.nil))) "preimage" =
      some (JVal.jstr "<redacted>")
  ∧ lookupObj (redactObj 2000
        (JObj.cons "preimage" (JVal.jstr "deadbeef")
          (JObj.cons "note" (JVal.jstr "hello") JObj.nil))) "note" =
      some (redactSensitive 2000 (JVal.jstr "hello"))
  ∧ redactSensitive 2000 (JVal.jstr "hello") = JVal.jstr "hello" :=
  ⟨redactSensitive_spec.2.1 2000
      (JObj.cons "preimage" (JVal.jstr "deadbeef")
        (JObj.cons "note" (JVal.jstr "hello") JObj.nil))
      "preimage" (JVal.jstr "deadbeef") rfl (by decide),
   redactSensitive_spec.2.2.1 2000
      (JObj.cons "preimage" (JVal.jstr "deadbeef")
        (JObj.cons "note" (JVal.jstr "hello") JObj.nil))
      "note" (JVal.jstr "hello") rfl (by decide),
   redactSensitive_spec.2.2.2.2.2 2000 "hello" (by decide)⟩

end IntercomSwap

namespace IntercomSwap

/-! ## Claim C8: waiting-terms replays the latest quote (spec-modelled) -/

/-- Folding over events without a matching QUOTE_ACCEPT keeps the
accumulator. -/
theorem foldl_no_qa (tradeId : String) :
    ∀ (post : List ObservedEvent) (acc : Option String),
      (∀ x ∈ post, ¬ (x.tradeId = tradeId ∧ x.kind = "swap.quote_accept")) →
      List.foldl
        (fun acc e =>
          if e.tradeId = tradeId ∧ e.kind = "swap.quote_accept" then some e.quoteId else acc)
        acc post = acc
  | [], _, _ => rfl
  | x :: xs, acc, h => by
      rw [List.foldl_cons, if_neg (h x (by simp))]
      exact foldl_no_qa tradeId xs acc (fun y hy => h y (by simp [hy]))

/-- C8 (spec-modelled): every waiting-terms replay carries the quote_id of
the most recent QUOTE_ACCEPT observed for the trade, never an older one,
and a ping is emitted only below the max-ping budget and after the
cooldown has elapsed. -/
theorem waitingTermsReplay_spec :
    (∀ (tradeId : String) (pre post : List ObservedEvent) (e : ObservedEvent),
      e.tradeId = tradeId → e.kind = "swap.quote_accept" →
      (∀ x ∈ post, ¬ (x.tradeId = tradeId ∧ x.kind = "swap.quote_accept")) →
      waitingTermsReplay tradeId (pre ++ e :: post) =
        some { kind := "swap.quote_accept", tradeId := tradeId, quoteId := e.quoteId })
  ∧ (∀ (cooldownMs : Int) (maxPings : Nat) (st : PingState) (nowMs : Int)
       (tradeId : String) (events : List ObservedEvent) (msg : ReplayMsg) (st2 : PingState),
      waitingTermsPingStep cooldownMs maxPings st nowMs tradeId events = (some msg, st2) →
      st.pings < maxPings ∧ nowMs - st.lastPingAtMs ≥ cooldownMs ∧
      waitingTermsReplay tradeId events = some msg ∧ st2.pings = st.pings + 1) := by
  constructor
  · intro tradeId pre post e he hk hpost
    unfold waitingTermsReplay latestQuoteAcceptId
    rw [List.foldl_append, List.foldl_cons, if_pos ⟨he, hk⟩, foldl_no_qa tradeId post _ hpost]
    rfl
  · intro c mp st now t evs msg st2 h
    unfold waitingTermsPingStep at h
    split_ifs at h with hc
    · cases hrep : waitingTermsReplay t evs with
      | none =>
        rw [hrep] at h
        exact absurd h (by simp)
      | some mm =>
        rw [hrep] at h
        have h1 : some mm = some msg := congrArg Prod.fst h
        have h2 : ({ pings := st.pings + 1, lastPingAtMs := now } : PingState) = st2 :=
          congrArg Prod.snd h
        refine ⟨hc.1, hc.2, ?_, ?_⟩
        · exact h1
        · rw [← h2]
    · exact absurd h (by simp)

/-- Witness for C8 on the reposted-trade scenario: the replayed
QUOTE_ACCEPT carries the later quote id 2*64, and the first ping fires
within budget. -/
theorem waitingTermsReplay_spec_witness :
    waitingTermsReplay "swap_test_5" c8events =
      some { kind := "swap.quote_accept", tradeId := "swap_test_5",
             quoteId := String.mk (List.replicate 64 '2') }
  ∧ ((0 : Nat) < 1 ∧ (2000 : Int) - 0 ≥ 1000 ∧
      waitingTermsReplay "swap_test_5" c8events =
        some { kind := "swap.quote_accept", tradeId := "swap_test_5",
               quoteId := String.mk (List.replicate 64 '2') } ∧
      (1 : Nat) = 0 + 1) :=
  ⟨waitingTermsReplay_spec.1 "swap_test_5"
      (c8events.take 5)
      [{ seq := 7, kind := "swap.swap_invite", tradeId := "swap_test_5", quoteId := "" }]
      { seq := 6, kind := "swap.quote_accept", tradeId := "swap_test_5",
        quoteId := String.mk (List.replicate 64 '2') }
      rfl rfl (by decide),
   waitingTermsReplay_spec.2 1000 1 ⟨0, 0⟩ 2000 "swap_test_5" c8events
      { kind := "swap.quote_accept", tradeId := "swap_test_5",
        quoteId := String.mk (List.replicate 64 '2') }
      ⟨1, 2000⟩ (by decide)⟩

end IntercomSwap
